import Mathlib

/-!
Verification of the sapp_chat domain model (src/models.py): rooms,
participants and messages, with their lifecycle rules, shallowly embedded.
Time is modelled as minutes since an arbitrary epoch; one hour is 60 minutes.
The object-relational store is modelled as explicit lists of records passed
to each operation.
-/

namespace SappChat

/-- One hour, in minutes (model of `datetime.timedelta(hours=1)`). -/
def hour : Nat := 60

/-- A chat room record (src/models.py:29-39).  `max_participants` is a signed
integer field (default 2); `created_by` is the creator's user id (from the
framework base record). -/
structure Room where
  id : Nat
  name : String
  max_participants : Int
  admins_only : Bool
  created_by : Nat
deriving DecidableEq

/-- A membership record binding one user to one room (src/models.py:85-97). -/
structure Participant where
  id : Nat
  room_id : Nat
  user_id : Nat
  is_admin : Bool
  date_joined : Nat
deriving DecidableEq

/-- A message record (src/models.py:111-124).  `disappering_at` is a nullable
timestamp (`none` models SQL NULL / Python None). -/
structure Message where
  id : Nat
  participant_id : Nat
  disappering : Bool
  disappering_at : Option Nat
  creation_timestamp : Nat
deriving DecidableEq

/-- `Room.participants` property (src/models.py:45-47):
`Participant.objects.filter(room=self)`, over the given participant table. -/
def Room.participants (r : Room) (ps : List Participant) : List Participant :=
  ps.filter (fun p => p.room_id == r.id)

/-- `self.room.participants.count()` as used in src/models.py:107. -/
def Room.participantCount (r : Room) (ps : List Participant) : Nat :=
  (r.participants ps).length

/-- `Room.validate_name` (src/models.py:56-58): raises
ValidationError("Group Rooms need a name!") when `not self.name` (the
CharField is empty) and `self.max_participants > 2`. -/
def Room.validate_name (r : Room) : Except String Unit :=
  if r.name = "" ∧ r.max_participants > 2 then
    Except.error "Group Rooms need a name!"
  else
    Except.ok ()

/-- `Room.clean` (src/models.py:60-62): the framework `super().clean()` is a
no-op for these fields, then `validate_name` runs. -/
def Room.clean (r : Room) : Except String Unit :=
  r.validate_name

/-- A Python runtime value, as far as `Room.set_name` compares values: the
expression `self.participants == 2` compares a queryset object with an int.
Python's `==` between a queryset and an int falls back to object identity and
is always False; `pyEq` models `==` on this small universe of values. -/
inductive PyVal where
  | int (n : Int)
  | queryset (ps : List Participant)
deriving DecidableEq

/-- Python `==` on the values compared in src/models.py:65: equal ints are
equal, equal querysets are equal, and values of different kinds are never
equal (a queryset never equals an int). -/
def pyEq : PyVal → PyVal → Bool
  | PyVal.int a, PyVal.int b => decide (a = b)
  | PyVal.queryset a, PyVal.queryset b => decide (a = b)
  | _, _ => false

/-- `Room.set_name` (src/models.py:64-66): literally
`if self.participants == 2 and not self.name: self.name = f"{self.created_by} & ..."`.
The left conjunct compares the participants queryset itself (not its count)
with the integer 2.  `creatorName` is `str(self.created_by)`. -/
def Room.set_name (r : Room) (ps : List Participant) (creatorName : String) : Room :=
  if pyEq (PyVal.queryset (r.participants ps)) (PyVal.int 2) ∧ r.name = "" then
    { r with name := creatorName ++ " & ..." }
  else
    r

/-- `Room.auto_join_room` (src/models.py:68-74): if
`Participant.objects.filter(user_id=self.created_by_id).exists()` is false —
note the filter is on the user only, over the whole participant table, with no
room condition — insert one admin Participant for this room and this creator.
`now` is the auto-set `date_joined`; `fresh_id` is the id the store assigns. -/
def Room.auto_join_room (r : Room) (now fresh_id : Nat) (ps : List Participant) :
    List Participant :=
  if ps.any (fun p => p.user_id == r.created_by) then
    ps
  else
    ps ++ [{ id := fresh_id, room_id := r.id, user_id := r.created_by,
             is_admin := true, date_joined := now }]

/-- `Participant.validate_room_max_participants` (src/models.py:106-108):
raises ValidationError("Room full!") when the count of Participants in the
participant's room is `>=` the room's `max_participants`. -/
def Participant.validate_room_max_participants (room : Room) (ps : List Participant) :
    Except String Unit :=
  if (Room.participantCount room ps : Int) ≥ room.max_participants then
    Except.error "Room full!"
  else
    Except.ok ()

/-- `Message.validate_admins_only` (src/models.py:130-132): raises
ValidationError("Only admins can post messages in this room.") when the
participant's room has `admins_only` and the participant is not an admin. -/
def Message.validate_admins_only (room : Room) (participant : Participant) :
    Except String Unit :=
  if room.admins_only ∧ ¬ participant.is_admin then
    Except.error "Only admins can post messages in this room."
  else
    Except.ok ()

/-- `Message.set_disappearing_at` (src/models.py:134-136): if `disappering`
and `not self.disappering_at` (the nullable timestamp is None), set
`disappering_at = timezone.now() + timedelta(hours=1)`. -/
def Message.set_disappearing_at (now : Nat) (m : Message) : Message :=
  if m.disappering ∧ m.disappering_at = none then
    { m with disappering_at := some (now + hour) }
  else
    m

/-- `Message.save` (src/models.py:138-140): runs `set_disappearing_at` and
then the framework save (which persists the fields unchanged). -/
def Message.save (now : Nat) (m : Message) : Message :=
  m.set_disappearing_at now

/-- The row predicate of the sweep's query
`filter(disappering_at__lte=timezone.now())` (src/models.py:148): true when
the nullable `disappering_at` holds a time at or before `now`; a NULL
`disappering_at` never matches an `__lte` lookup. -/
def expiredAt (now : Nat) (m : Message) : Bool :=
  match m.disappering_at with
  | some t => decide (t ≤ now)
  | none => false

/-- `Message.delete_disappearing_messages` (src/models.py:146-148): one bulk
delete of every row matching `disappering_at__lte=now`.  The Python method has
no return statement, so it returns None: the second component is the returned
value, and it is always `none` (never a count). -/
def Message.delete_disappearing_messages (now : Nat) (msgs : List Message) :
    List Message × Option Nat :=
  (msgs.filter (fun m => ! expiredAt now m), none)

/-- Number of messages with `creation_timestamp` in the half-open interval
`[lo, hi)`, as produced by the queryset
`filter(creation_timestamp__gte=lo, creation_timestamp__lt=hi).count()`. -/
def countBetween (lo hi : Nat) (msgs : List Message) : Nat :=
  msgs.countP (fun m => decide (lo ≤ m.creation_timestamp ∧ m.creation_timestamp < hi))

/-- Zero-padded two-digit decimal rendering of an hour or minute component,
as `strftime` produces for `%H` and `%M`. -/
def pad2 (n : Nat) : String :=
  if n < 10 then "0" ++ toString n else toString n

/-- `period.strftime("%H:%M")` (src/models.py:160) for a time `t` in minutes:
the hour of day and minute of hour, zero-padded, separated by a colon. -/
def hhmm (t : Nat) : String :=
  pad2 (t / 60 % 24) ++ ":" ++ pad2 (t % 60)

/-- `Message.get_message_volume_stats` (src/models.py:154-161):
`ago = now - 24h`; for i in range(24), the bucket starting at `ago + i` hours
is keyed by its start time's "HH:MM" label and valued by the count of messages
with `creation_timestamp` in `[period, period + 1h)`.  The Python dict is
modelled as the association list produced in insertion order. -/
def Message.get_message_volume_stats (now : Nat) (msgs : List Message) :
    List (String × Nat) :=
  (List.range 24).map (fun i =>
    (hhmm (now - 24 * hour + i * hour),
     countBetween (now - 24 * hour + i * hour) (now - 24 * hour + i * hour + hour) msgs))

/-- Modelled from the spec: the room-creation pipeline of §4.1 (contract
`create_room`).  The framework `SM` save pipeline from `sapp.models` is not
under src/; per the spec, validation (`clean`, hence `validate_name`) runs
before persistence, and on success the record is persisted into the store. -/
def create_room (r : Room) (rooms : List Room) : Except String (List Room) :=
  match r.clean with
  | Except.error e => Except.error e
  | Except.ok () => Except.ok (rooms ++ [r])

/-- Modelled from the spec: the join operation of §4.2 (contract
`join_room(room, user, is_admin) -> Participant | Error`).  The framework save
pipeline from `sapp.models` is not under src/; per the spec, the capacity
check `validate_room_max_participants` runs first, and on success one
Participant with `date_joined = now` is inserted. -/
def join_room (room : Room) (user : Nat) (is_admin : Bool) (now fresh_id : Nat)
    (ps : List Participant) : Except String (List Participant) :=
  match Participant.validate_room_max_participants room ps with
  | Except.error e => Except.error e
  | Except.ok () => Except.ok
      (ps ++ [{ id := fresh_id, room_id := room.id, user_id := user,
                is_admin := is_admin, date_joined := now }])

lemma expiredAt_iff (now : Nat) (m : Message) :
    expiredAt now m = true ↔ ∃ t, m.disappering_at = some t ∧ t ≤ now := by
  cases h : m.disappering_at <;> simp [expiredAt, h]

/-- C5: `validate_admins_only` raises
ValidationError("Only admins can post messages in this room.") exactly when
the participant's room has `admins_only` set and the participant's `is_admin`
is false; admins, and anyone in a room without `admins_only`, pass. -/
theorem validate_admins_only_spec (room : Room) (p : Participant) :
    (Message.validate_admins_only room p =
        Except.error "Only admins can post messages in this room." ↔
      room.admins_only = true ∧ p.is_admin = false) ∧
    (¬ (room.admins_only = true ∧ p.is_admin = false) →
      Message.validate_admins_only room p = Except.ok ()) := by
  unfold Message.validate_admins_only
  by_cases h : (room.admins_only : Prop) ∧ ¬ p.is_admin
  · simp only [if_pos h]
    simp [h.1, h.2]
  · simp only [if_neg h]
    refine ⟨⟨fun hb => by simp at hb, fun hr => absurd ⟨hr.1, by simp [hr.2]⟩ h⟩,
      fun _ => by trivial⟩

/-- C5 witness: a non-admin participant in an admins-only room is rejected
with the exact error message. -/
theorem validate_admins_only_witness :
    Message.validate_admins_only
        { id := 1, name := "g", max_participants := 5, admins_only := true, created_by := 1 }
        { id := 1, room_id := 1, user_id := 2, is_admin := false, date_joined := 0 } =
      Except.error "Only admins can post messages in this room." :=
  (validate_admins_only_spec
    { id := 1, name := "g", max_participants := 5, admins_only := true, created_by := 1 }
    { id := 1, room_id := 1, user_id := 2, is_admin := false, date_joined := 0 }).1.mpr
    ⟨rfl, rfl⟩

/-- C6: on save, a message with `disappering` set and no `disappering_at` gets
`disappering_at = now + 1 hour`; a message already carrying a
`disappering_at` value is never changed by a later save; a message with
`disappering` false is saved unchanged. -/
theorem set_disappearing_at_spec (now : Nat) (m : Message) :
    (m.disappering = true → m.disappering_at = none →
      (Message.save now m).disappering_at = some (now + hour)) ∧
    (∀ t, m.disappering_at = some t → ∀ later, Message.save later m = m) ∧
    (m.disappering = false → Message.save now m = m) := by
  refine ⟨?_, ?_, ?_⟩
  · intro h1 h2
    simp [Message.save, Message.set_disappearing_at, h1, h2]
  · intro t ht later
    simp [Message.save, Message.set_disappearing_at, ht]
  · intro h
    simp [Message.save, Message.set_disappearing_at, h]

/-- C6 witness: saving a fresh disappearing message at time 0 stamps
`disappering_at` with 0 + 1 hour. -/
theorem set_disappearing_at_witness :
    (Message.save 0
        { id := 1, participant_id := 1, disappering := true,
          disappering_at := none, creation_timestamp := 0 }).disappering_at =
      some (0 + hour) :=
  (set_disappearing_at_spec 0
    { id := 1, participant_id := 1, disappering := true,
      disappering_at := none, creation_timestamp := 0 }).1 rfl rfl

/-- C2 counterexample: at time 100, on a store holding exactly one expired
message, the sweep deletes that message, yet the value the method returns is
None (the Python method body has no return statement), not the number of
messages deleted (1). -/
theorem delete_disappearing_no_count :
    (Message.delete_disappearing_messages 100
        [{ id := 1, participant_id := 1, disappering := true,
           disappering_at := some 50, creation_timestamp := 0 }]).1 = [] ∧
    (Message.delete_disappearing_messages 100
        [{ id := 1, participant_id := 1, disappering := true,
           disappering_at := some 50, creation_timestamp := 0 }]).2 ≠ some 1 := by
  decide

/-- C2 (amended): the sweep deletes, in one bulk operation, exactly the
messages whose `disappering_at` is at or before the current time; it returns
None rather than a count; and an immediately repeated invocation deletes
zero messages (the store is left exactly as after the first run). -/
theorem delete_disappearing_messages_spec (now : Nat) (msgs : List Message) :
    (∀ m, m ∈ (Message.delete_disappearing_messages now msgs).1 ↔
        m ∈ msgs ∧ ¬ (∃ t, m.disappering_at = some t ∧ t ≤ now)) ∧
    (Message.delete_disappearing_messages now msgs).2 = none ∧
    (Message.delete_disappearing_messages now
        (Message.delete_disappearing_messages now msgs).1).1 =
      (Message.delete_disappearing_messages now msgs).1 := by
  refine ⟨?_, rfl, ?_⟩
  · intro m
    rw [← expiredAt_iff now m]
    simp [Message.delete_disappearing_messages, List.mem_filter]
  · apply List.filter_eq_self.mpr
    intro m hm
    exact (List.mem_filter.mp hm).2

/-- C2 witness: a second sweep right after a first one, at the same time,
leaves the store unchanged (deletes zero). -/
theorem delete_disappearing_messages_witness :
    (Message.delete_disappearing_messages 100
        (Message.delete_disappearing_messages 100
          [{ id := 1, participant_id := 1, disappering := true,
             disappering_at := some 50, creation_timestamp := 0 }]).1).1 =
      (Message.delete_disappearing_messages 100
        [{ id := 1, participant_id := 1, disappering := true,
           disappering_at := some 50, creation_timestamp := 0 }]).1 :=
  (delete_disappearing_messages_spec 100
    [{ id := 1, participant_id := 1, disappering := true,
       disappering_at := some 50, creation_timestamp := 0 }]).2.2

/-- C9: the sweep's predicate depends only on `disappering_at` and ignores the
`disappering` boolean: a message whose `disappering_at` is set and at or
before now is deleted (whatever its flag), a message with NULL
`disappering_at` is never deleted, and the row predicate is literally
invariant under flipping the `disappering` flag. -/
theorem sweep_ignores_disappering_flag (now : Nat) (msgs : List Message)
    (m : Message) (hm : m ∈ msgs) :
    (∀ t, m.disappering_at = some t → t ≤ now →
      m ∉ (Message.delete_disappearing_messages now msgs).1) ∧
    (m.disappering_at = none →
      m ∈ (Message.delete_disappearing_messages now msgs).1) ∧
    (∀ b, expiredAt now { m with disappering := b } = expiredAt now m) := by
  refine ⟨?_, ?_, fun b => rfl⟩
  · intro t ht hle hmem
    have h2 := (List.mem_filter.mp hmem).2
    have h3 : expiredAt now m = true := (expiredAt_iff now m).mpr ⟨t, ht, hle⟩
    simp [h3] at h2
  · intro hnone
    apply List.mem_filter.mpr
    refine ⟨hm, ?_⟩
    simp [expiredAt, hnone]

/-- C9 witness: a message with `disappering = false` but an expired
`disappering_at` is nonetheless deleted by the sweep. -/
theorem sweep_ignores_disappering_flag_witness :
    { id := 1, participant_id := 1, disappering := false,
      disappering_at := some 5, creation_timestamp := 0 : Message } ∉
      (Message.delete_disappearing_messages 10
        [{ id := 1, participant_id := 1, disappering := false,
           disappering_at := some 5, creation_timestamp := 0 }]).1 :=
  (sweep_ignores_disappering_flag 10
    [{ id := 1, participant_id := 1, disappering := false,
       disappering_at := some 5, creation_timestamp := 0 }]
    { id := 1, participant_id := 1, disappering := false,
      disappering_at := some 5, creation_timestamp := 0 }
    (List.mem_singleton.mpr rfl)).1 5 rfl (by decide)

/-- C4: the capacity check `validate_room_max_participants` fails with
"Room full!" exactly when the current count of Participants in the room is at
least the room's `max_participants`; when the count is below capacity the
check passes and the join inserts exactly one new Participant. -/
theorem join_room_capacity_spec (room : Room) (user : Nat) (adm : Bool)
    (now fresh_id : Nat) (ps : List Participant) :
    (Participant.validate_room_max_participants room ps =
        Except.error "Room full!" ↔
      (Room.participantCount room ps : Int) ≥ room.max_participants) ∧
    ((Room.participantCount room ps : Int) < room.max_participants →
      ∃ qs, join_room room user adm now fresh_id ps = Except.ok qs ∧
        Room.participantCount room qs = Room.participantCount room ps + 1) := by
  constructor
  · unfold Participant.validate_room_max_participants
    by_cases hc : (Room.participantCount room ps : Int) ≥ room.max_participants
    · simp [hc]
    · simp [hc]
  · intro hlt
    refine ⟨ps ++ [{ id := fresh_id, room_id := room.id, user_id := user,
                     is_admin := adm, date_joined := now }], ?_, ?_⟩
    · unfold join_room Participant.validate_room_max_participants
      rw [if_neg (not_le.mpr hlt)]
    · unfold Room.participantCount Room.participants
      rw [List.filter_append]
      simp

/-- C4 witness: joining an empty two-seat room succeeds and brings the count
from 0 to 1. -/
theorem join_room_capacity_witness :
    ∃ qs, join_room
        { id := 1, name := "", max_participants := 2, admins_only := false,
          created_by := 5 } 7 false 0 1 [] = Except.ok qs ∧
      Room.participantCount
          { id := 1, name := "", max_participants := 2, admins_only := false,
            created_by := 5 } qs =
        Room.participantCount
          { id := 1, name := "", max_participants := 2, admins_only := false,
            created_by := 5 } [] + 1 :=
  (join_room_capacity_spec
    { id := 1, name := "", max_participants := 2, admins_only := false,
      created_by := 5 } 7 false 0 1 []).2 (by decide)

/-- C7: `validate_name` fails with "Group Rooms need a name!" exactly when the
name is empty and `max_participants > 2`; in that case room creation fails
before anything is persisted, and in every other case the validation passes
and creation persists the room. -/
theorem create_room_name_validation_spec (r : Room) (rooms : List Room) :
    (Room.validate_name r = Except.error "Group Rooms need a name!" ↔
      r.name = "" ∧ r.max_participants > 2) ∧
    (r.name = "" ∧ r.max_participants > 2 →
      create_room r rooms = Except.error "Group Rooms need a name!") ∧
    (¬ (r.name = "" ∧ r.max_participants > 2) →
      Room.validate_name r = Except.ok () ∧
      create_room r rooms = Except.ok (rooms ++ [r])) := by
  by_cases h : r.name = "" ∧ r.max_participants > 2
  · refine ⟨by simp [Room.validate_name, h], fun _ => ?_, fun hn => absurd h hn⟩
    simp [create_room, Room.clean, Room.validate_name, h]
  · refine ⟨by simp [Room.validate_name, h], fun hh => absurd hh h, fun _ => ?_⟩
    constructor <;> simp [create_room, Room.clean, Room.validate_name, h]

/-- C7 witness: creating a nameless room with capacity 3 fails with the exact
group-name error. -/
theorem create_room_name_validation_witness :
    create_room
        { id := 1, name := "", max_participants := 3, admins_only := false,
          created_by := 1 } [] =
      Except.error "Group Rooms need a name!" :=
  (create_room_name_validation_spec
    { id := 1, name := "", max_participants := 3, admins_only := false,
      created_by := 1 } []).2.1 ⟨rfl, by decide⟩

/-- C10: the room-creation auto-join performs no capacity check: when the
creator passes the existence check the admin Participant is inserted
unconditionally; even with `max_participants ≤ 0` — a state in which
`validate_room_max_participants` would already reject any join — the
insertion happens and the resulting count strictly exceeds the capacity. -/
theorem auto_join_no_capacity_check (r : Room) (now fresh_id : Nat)
    (ps : List Participant) (hnone : ∀ p ∈ ps, p.user_id ≠ r.created_by) :
    Room.auto_join_room r now fresh_id ps =
      ps ++ [{ id := fresh_id, room_id := r.id, user_id := r.created_by,
               is_admin := true, date_joined := now }] ∧
    Room.participantCount r (Room.auto_join_room r now fresh_id ps) =
      Room.participantCount r ps + 1 ∧
    (r.max_participants ≤ 0 →
      Participant.validate_room_max_participants r ps =
        Except.error "Room full!" ∧
      (Room.participantCount r (Room.auto_join_room r now fresh_id ps) : Int) >
        r.max_participants) := by
  have hany : (ps.any (fun p => p.user_id == r.created_by)) = false := by
    rw [List.any_eq_false]
    intro p hp
    simpa using hnone p hp
  have h1 : Room.auto_join_room r now fresh_id ps =
      ps ++ [{ id := fresh_id, room_id := r.id, user_id := r.created_by,
               is_admin := true, date_joined := now }] := by
    simp [Room.auto_join_room, hany]
  have h2 : Room.participantCount r (Room.auto_join_room r now fresh_id ps) =
      Room.participantCount r ps + 1 := by
    rw [h1]
    unfold Room.participantCount Room.participants
    rw [List.filter_append]
    simp
  refine ⟨h1, h2, fun hmax => ⟨?_, ?_⟩⟩
  · unfold Participant.validate_room_max_participants
    rw [if_pos]
    exact le_trans hmax (Int.ofNat_nonneg _)
  · rw [h2]
    push_cast
    omega

/-- C10 witness: a room created with `max_participants = 0` still auto-joins
its creator, ending with 1 participant in a 0-capacity room. -/
theorem auto_join_no_capacity_check_witness :
    Participant.validate_room_max_participants
        { id := 1, name := "", max_participants := 0, admins_only := false,
          created_by := 5 } [] = Except.error "Room full!" ∧
    (Room.participantCount
        { id := 1, name := "", max_participants := 0, admins_only := false,
          created_by := 5 }
        (Room.auto_join_room
          { id := 1, name := "", max_participants := 0, admins_only := false,
            created_by := 5 } 0 1 []) : Int) >
      ({ id := 1, name := "", max_participants := 0, admins_only := false,
         created_by := 5 } : Room).max_participants :=
  (auto_join_no_capacity_check
    { id := 1, name := "", max_participants := 0, admins_only := false,
      created_by := 5 } 0 1 [] (by simp)).2.2 (by decide)

/-- C1 fails on the code: user 5 already participates in room 1; when user 5
creates room 2 the creator has no Participant record for room 2, yet
`auto_join_room` inserts nothing — its existence check
`Participant.objects.filter(user_id=...)` looks across all rooms — so the
new room ends with zero participants and its creator is not a member. -/
theorem auto_join_skips_creator_second_room :
    (∀ p ∈ [({ id := 1, room_id := 1, user_id := 5, is_admin := true,
               date_joined := 0 } : Participant)],
      ¬ (p.room_id = 2 ∧ p.user_id = 5)) ∧
    Room.auto_join_room
        { id := 2, name := "", max_participants := 2, admins_only := false,
          created_by := 5 } 10 7
        [{ id := 1, room_id := 1, user_id := 5, is_admin := true,
           date_joined := 0 }] =
      [{ id := 1, room_id := 1, user_id := 5, is_admin := true,
         date_joined := 0 }] ∧
    Room.participantCount
        { id := 2, name := "", max_participants := 2, admins_only := false,
          created_by := 5 }
        (Room.auto_join_room
          { id := 2, name := "", max_participants := 2, admins_only := false,
            created_by := 5 } 10 7
          [{ id := 1, room_id := 1, user_id := 5, is_admin := true,
             date_joined := 0 }]) = 0 := by
  decide

/-- C3 fails on the code: `set_name` never changes any room, because its guard
compares the participants queryset itself with the integer 2 — never true in
Python; in particular a nameless room with exactly two participants keeps its
empty name. -/
theorem set_name_never_fires :
    (∀ (r : Room) (ps : List Participant) (s : String), Room.set_name r ps s = r) ∧
    Room.participantCount
        { id := 1, name := "", max_participants := 2, admins_only := false,
          created_by := 5 }
        [{ id := 1, room_id := 1, user_id := 5, is_admin := true, date_joined := 0 },
         { id := 2, room_id := 1, user_id := 6, is_admin := false, date_joined := 0 }] = 2 ∧
    Room.set_name
        { id := 1, name := "", max_participants := 2, admins_only := false,
          created_by := 5 }
        [{ id := 1, room_id := 1, user_id := 5, is_admin := true, date_joined := 0 },
         { id := 2, room_id := 1, user_id := 6, is_admin := false, date_joined := 0 }]
        "alice" =
      { id := 1, name := "", max_participants := 2, admins_only := false,
        created_by := 5 } := by
  refine ⟨fun r ps s => by simp [Room.set_name, pyEq], by decide, ?_⟩
  simp [Room.set_name, pyEq]

lemma pad2_inj : ∀ a, a < 24 → ∀ b, b < 24 → pad2 a = pad2 b → a = b := by
  decide

lemma pad2_len : ∀ a, a < 24 → (pad2 a).data.length = 2 := by
  decide

lemma string_data_inj (a b : String) (h : a.data = b.data) : a = b := by
  cases a
  cases b
  exact congrArg String.mk h

lemma hhmm_label_inj (h1 h2 : Nat) (m : String) (hl1 : h1 < 24) (hl2 : h2 < 24)
    (he : pad2 h1 ++ ":" ++ m = pad2 h2 ++ ":" ++ m) : h1 = h2 := by
  have hd : (pad2 h1).data ++ ((":" ++ m).data) =
      (pad2 h2).data ++ ((":" ++ m).data) := by
    have hc := congrArg String.data he
    simpa [String.data_append, List.append_assoc] using hc
  have hp : (pad2 h1).data = (pad2 h2).data :=
    List.append_inj_left hd (by rw [pad2_len h1 hl1, pad2_len h2 hl2])
  exact pad2_inj h1 hl1 h2 hl2 (string_data_inj _ _ hp)

lemma hhmm_shift (a i : Nat) :
    hhmm (a + i * hour) = pad2 ((a / 60 + i) % 24) ++ ":" ++ pad2 (a % 60) := by
  unfold hhmm hour
  have h1 : (a + i * 60) / 60 % 24 = (a / 60 + i) % 24 := by omega
  have h2 : (a + i * 60) % 60 = a % 60 := by omega
  rw [h1, h2]

lemma hhmm_inj_on_buckets (a i j : Nat) (hi : i < 24) (hj : j < 24)
    (he : hhmm (a + i * hour) = hhmm (a + j * hour)) : i = j := by
  rw [hhmm_shift, hhmm_shift] at he
  have h1 : (a / 60 + i) % 24 < 24 := Nat.mod_lt _ (by norm_num)
  have h2 : (a / 60 + j) % 24 < 24 := Nat.mod_lt _ (by norm_num)
  have hh := hhmm_label_inj _ _ _ h1 h2 he
  omega

lemma countBetween_split (a b c : Nat) (hab : a ≤ b) (hbc : b ≤ c)
    (msgs : List Message) :
    countBetween a c msgs = countBetween a b msgs + countBetween b c msgs := by
  induction msgs with
  | nil => rfl
  | cons m tl ih =>
    unfold countBetween at *
    simp only [List.countP_cons, decide_eq_true_eq]
    rw [ih]
    split_ifs <;> omega

lemma countBetween_buckets (msgs : List Message) (a : Nat) (k : Nat) :
    ((List.range k).map
        (fun i => countBetween (a + i * hour) (a + i * hour + hour) msgs)).sum =
      countBetween a (a + k * hour) msgs := by
  induction k with
  | zero =>
    simp only [List.range_zero, List.map_nil, List.sum_nil, Nat.zero_mul,
      Nat.add_zero]
    symm
    rw [countBetween, List.countP_eq_zero]
    intro m _
    simp only [decide_eq_true_eq]
    omega
  | succ k ih =>
    rw [List.range_succ, List.map_append, List.sum_append, ih]
    simp only [List.map_cons, List.map_nil, List.sum_cons, List.sum_nil]
    have harith : a + (k + 1) * hour = a + k * hour + hour := by ring
    rw [harith, countBetween_split a (a + k * hour) (a + k * hour + hour)
      (by omega) (by omega) msgs]
    omega

/-- C8: the volume statistics cover exactly 24 one-hour buckets: the mapping
has 24 entries with pairwise-distinct "HH:MM" keys; the bucket starting at
`now - 24h + i` hours appears keyed by its start label with the count of
messages whose `creation_timestamp` falls in the half-open hour interval; and
the counts sum to the number of messages created in the trailing 24-hour
window. -/
theorem message_volume_stats_spec (now : Nat) (msgs : List Message)
    (h24 : 24 * hour ≤ now) :
    (Message.get_message_volume_stats now msgs).length = 24 ∧
    ((Message.get_message_volume_stats now msgs).map Prod.fst).Nodup ∧
    (∀ i, i < 24 →
      (hhmm (now - 24 * hour + i * hour),
       countBetween (now - 24 * hour + i * hour)
         (now - 24 * hour + i * hour + hour) msgs) ∈
        Message.get_message_volume_stats now msgs) ∧
    ((Message.get_message_volume_stats now msgs).map Prod.snd).sum =
      countBetween (now - 24 * hour) now msgs := by
  refine ⟨?_, ?_, ?_, ?_⟩
  · simp [Message.get_message_volume_stats]
  · unfold Message.get_message_volume_stats
    rw [List.map_map]
    apply List.Nodup.map_on ?_ (List.nodup_range 24)
    intro i hi j hj he
    simp only [Function.comp] at he
    exact hhmm_inj_on_buckets (now - 24 * hour) i j
      (List.mem_range.mp hi) (List.mem_range.mp hj) he
  · intro i hi
    unfold Message.get_message_volume_stats
    exact List.mem_map.mpr ⟨i, List.mem_range.mpr hi, rfl⟩
  · unfold Message.get_message_volume_stats
    rw [List.map_map]
    have hsum := countBetween_buckets msgs (now - 24 * hour) 24
    have hend : now - 24 * hour + 24 * hour = now := by omega
    rw [hend] at hsum
    exact hsum

/-- C8 witness: at time 1440 (exactly one day after the epoch), over a store
with one message, the statistics have 24 entries and their counts sum to the
trailing-24h message count. -/
theorem message_volume_stats_witness :
    (Message.get_message_volume_stats 1440
        [{ id := 1, participant_id := 1, disappering := false,
           disappering_at := none, creation_timestamp := 100 }]).length = 24 ∧
    ((Message.get_message_volume_stats 1440
        [{ id := 1, participant_id := 1, disappering := false,
           disappering_at := none, creation_timestamp := 100 }]).map Prod.snd).sum =
      countBetween (1440 - 24 * hour) 1440
        [{ id := 1, participant_id := 1, disappering := false,
           disappering_at := none, creation_timestamp := 100 }] :=
  ⟨(message_volume_stats_spec 1440
      [{ id := 1, participant_id := 1, disappering := false,
         disappering_at := none, creation_timestamp := 100 }] (by decide)).1,
   (message_volume_stats_spec 1440
      [{ id := 1, participant_id := 1, disappering := false,
         disappering_at := none, creation_timestamp := 100 }] (by decide)).2.2.2⟩

end SappChat
